import Mathlib

/-!
Shallow embedding of the hardware command bridge of the Asta repository
(`src/rasbery_h.py`, the Raspberry Pi variant, and `src/Volt/rasbery_h.py`,
the PC variant).  Pure request processing is translated into Lean functions;
the module-level mutable state (the two serial handles, the camera handle,
the `camera_running` flag and the `latest_frame` slot) becomes an explicit
`ServerState` threaded through each handler.  External effects that the code
cannot decide by itself (whether opening a serial port succeeds, whether a
serial write throws) are passed in as boolean oracles, and every byte string
written to a device is recorded in an explicit write trace.
-/

namespace Asta

/-- A serial handle as each handler observes it.  `none` models the Python
variable holding `None`; `some b` models a `serial.Serial` object whose
`is_open` attribute is `b`.  The tests in the source are
`x is None or not x.is_open` (not connected) and `x and x.is_open`
(connected), i.e. connected iff the state is `some true`. -/
abbrev Link := Option Bool

/-- The module-level mutable state of one server variant: the two serial
handles, the camera handle (`camera`), the `camera_running` flag and the
shared `latest_frame` slot (frames abstracted to `Nat`). -/
structure ServerState where
  handLink : Link
  faceLink : Link
  camera : Option Nat
  cameraRunning : Bool
  latestFrame : Option Nat
deriving DecidableEq, Repr

/-- One byte string written on a serial device.  `handTest`/`faceTest` are the
fixed probe commands written inside `init_hand_arduino`/`init_face_arduino`
(`"0,0,0,0,180,180,0\n"` and `"E90 M0\n"`); `handCmd`/`faceCmd` record the
line written by `send_to_hand_arduino`/`send_to_face_arduino`. -/
inductive DeviceWrite where
  | handTest
  | faceTest
  | handCmd (line : String)
  | faceCmd (line : String)
deriving DecidableEq, Repr

/-- Model of Python `s.strip()`: drop whitespace characters from both ends
of the character list. -/
def pyStrip (s : String) : String :=
  ⟨((s.data.dropWhile Char.isWhitespace).reverse.dropWhile Char.isWhitespace).reverse⟩

/-- Model of Python `s.lower()`: lower-case each character. -/
def pyLower (s : String) : String :=
  ⟨s.data.map Char.toLower⟩

/-- Model of Python `data_str.endswith('\n')`: for a one-character suffix this
is exactly "the last character is a newline". -/
def endsWithNewline (s : String) : Bool :=
  s.data.getLast? = some '\n'

/-- `if not data_str.endswith('\n'): data_str += '\n'` in both `send_to_*`
functions. -/
def ensureNewline (s : String) : String :=
  if endsWithNewline s then s else s ++ "\n"

/-- `init_hand_arduino` (both variants): opening the port either succeeds
(oracle `ok`), leaving an open handle and performing the fixed test write, or
fails, in which case the handle is reset to `None` and `False` is returned. -/
def init_hand_arduino (ok : Bool) (st : ServerState) :
    Bool × ServerState × List DeviceWrite :=
  if ok then
    (true, { st with handLink := some true }, [DeviceWrite.handTest])
  else
    (false, { st with handLink := none }, [])

/-- `init_face_arduino` (both variants), analogous to the hand version with
the `"E90 M0\n"` test write. -/
def init_face_arduino (ok : Bool) (st : ServerState) :
    Bool × ServerState × List DeviceWrite :=
  if ok then
    (true, { st with faceLink := some true }, [DeviceWrite.faceTest])
  else
    (false, { st with faceLink := none }, [])

/-- `send_to_hand_arduino` of `src/rasbery_h.py` (lines 161-180): if the
handle is `None` or not open it fails without reconnecting; otherwise it
writes the newline-terminated line.  A transport exception (oracle
`writeOk = false`) is caught and reported as a failure, and the handle is
left untouched. -/
def rasb_send_to_hand_arduino (writeOk : Bool) (data_str : String)
    (st : ServerState) : (Bool × String) × ServerState × List DeviceWrite :=
  if st.handLink ≠ some true then
    ((false, "Arduino Hand не подключен"), st, [])
  else if writeOk then
    ((true, "Команда отправлена"), st, [DeviceWrite.handCmd (ensureNewline data_str)])
  else
    ((false, "Ошибка отправки"), st, [])

/-- `send_to_face_arduino` of `src/rasbery_h.py` (lines 182-201), analogous
to the hand version. -/
def rasb_send_to_face_arduino (writeOk : Bool) (data_str : String)
    (st : ServerState) : (Bool × String) × ServerState × List DeviceWrite :=
  if st.faceLink ≠ some true then
    ((false, "Arduino Face не подключен"), st, [])
  else if writeOk then
    ((true, "Команда отправлена"), st, [DeviceWrite.faceCmd (ensureNewline data_str)])
  else
    ((false, "Ошибка отправки"), st, [])

/-- The write/flush part of `send_to_hand_arduino` of
`src/Volt/rasbery_h.py` (lines 225-247): on a transport exception the handle
is reset to `None` (`hand_arduino = None`) before the failure is returned. -/
def volt_hand_write (writeOk : Bool) (data_str : String) (st : ServerState) :
    (Bool × String) × ServerState × List DeviceWrite :=
  if writeOk then
    ((true, "Команда отправлена"), st, [DeviceWrite.handCmd (ensureNewline data_str)])
  else
    ((false, "Ошибка отправки"), { st with handLink := none }, [])

/-- `send_to_hand_arduino` of `src/Volt/rasbery_h.py` (lines 215-247): if the
handle is `None` or not open it first attempts one `init_hand_arduino`; if
that fails it returns a failure, otherwise it proceeds to the write. -/
def volt_send_to_hand_arduino (connectOk writeOk : Bool) (data_str : String)
    (st : ServerState) : (Bool × String) × ServerState × List DeviceWrite :=
  if st.handLink ≠ some true then
    match init_hand_arduino connectOk st with
    | (false, st1, w) => ((false, "Arduino Hand не подключен"), st1, w)
    | (true, st1, w) =>
        let r := volt_hand_write writeOk data_str st1
        (r.1, r.2.1, w ++ r.2.2)
  else
    volt_hand_write writeOk data_str st

/-- The write/flush part of `send_to_face_arduino` of
`src/Volt/rasbery_h.py` (lines 264-286): on a transport exception the handle
is reset to `None`. -/
def volt_face_write (writeOk : Bool) (data_str : String) (st : ServerState) :
    (Bool × String) × ServerState × List DeviceWrite :=
  if writeOk then
    ((true, "Команда отправлена"), st, [DeviceWrite.faceCmd (ensureNewline data_str)])
  else
    ((false, "Ошибка отправки"), { st with faceLink := none }, [])

/-- `send_to_face_arduino` of `src/Volt/rasbery_h.py` (lines 250-286): the
`None` handle and the closed handle are distinguished only by the failure
message; both reconnect via one `init_face_arduino` call. -/
def volt_send_to_face_arduino (connectOk writeOk : Bool) (data_str : String)
    (st : ServerState) : (Bool × String) × ServerState × List DeviceWrite :=
  if st.faceLink = none then
    match init_face_arduino connectOk st with
    | (false, st1, w) => ((false, "Arduino Face не инициализирован"), st1, w)
    | (true, st1, w) =>
        let r := volt_face_write writeOk data_str st1
        (r.1, r.2.1, w ++ r.2.2)
  else if st.faceLink ≠ some true then
    match init_face_arduino connectOk st with
    | (false, st1, w) => ((false, "Arduino Face не подключен"), st1, w)
    | (true, st1, w) =>
        let r := volt_face_write writeOk data_str st1
        (r.1, r.2.1, w ++ r.2.2)
  else
    volt_face_write writeOk data_str st

/-- `max(lo, min(hi, v))`, the clamping idiom used throughout both files. -/
def clamp (lo hi v : Int) : Int := max lo (min hi v)

/-- The recognized fields of a `POST /hand` JSON body.  A `none` field was
absent from the body. -/
structure HandPayload where
  wrist : Option Int
  f1 : Option Int
  f2 : Option Int
  f3 : Option Int
  f4 : Option Int
  f5 : Option Int
  f6 : Option Int
deriving DecidableEq, Repr

/-- The seven hand channels after extraction/clamping. -/
structure HandAngles where
  wrist : Int
  f1 : Int
  f2 : Int
  f3 : Int
  f4 : Int
  f5 : Int
  f6 : Int
deriving DecidableEq, Repr

/-- Field extraction of `set_hand` in `src/rasbery_h.py` (lines 246-252):
every missing field defaults to 0. -/
def rasb_extract_angles (p : HandPayload) : HandAngles :=
  { wrist := p.wrist.getD 0, f1 := p.f1.getD 0, f2 := p.f2.getD 0,
    f3 := p.f3.getD 0, f4 := p.f4.getD 0, f5 := p.f5.getD 0, f6 := p.f6.getD 0 }

/-- Field extraction of `set_hand` in `src/Volt/rasbery_h.py` (lines
323-329): `f4` and `f5` default to 180 ("open"), the rest to 0. -/
def volt_extract_angles (p : HandPayload) : HandAngles :=
  { wrist := p.wrist.getD 0, f1 := p.f1.getD 0, f2 := p.f2.getD 0,
    f3 := p.f3.getD 0, f4 := p.f4.getD 180, f5 := p.f5.getD 180, f6 := p.f6.getD 0 }

/-- The clamping block of `set_hand` (identical in both variants): wrist to
[0, 90], each finger channel to [0, 180]. -/
def clampHand (a : HandAngles) : HandAngles :=
  { wrist := clamp 0 90 a.wrist, f1 := clamp 0 180 a.f1, f2 := clamp 0 180 a.f2,
    f3 := clamp 0 180 a.f3, f4 := clamp 0 180 a.f4, f5 := clamp 0 180 a.f5,
    f6 := clamp 0 180 a.f6 }

/-- `f"{wrist},{f1},{f2},{f3},{f4},{f5},{f6}"`. -/
def handCommand (a : HandAngles) : String :=
  toString a.wrist ++ "," ++ toString a.f1 ++ "," ++ toString a.f2 ++ "," ++
  toString a.f3 ++ "," ++ toString a.f4 ++ "," ++ toString a.f5 ++ "," ++
  toString a.f6

/-- All seven channels lie in their declared ranges. -/
def handInRange (a : HandAngles) : Prop :=
  0 ≤ a.wrist ∧ a.wrist ≤ 90 ∧
  0 ≤ a.f1 ∧ a.f1 ≤ 180 ∧ 0 ≤ a.f2 ∧ a.f2 ≤ 180 ∧
  0 ≤ a.f3 ∧ a.f3 ≤ 180 ∧ 0 ≤ a.f4 ∧ a.f4 ≤ 180 ∧
  0 ≤ a.f5 ∧ a.f5 ≤ 180 ∧ 0 ≤ a.f6 ∧ a.f6 ≤ 180

instance (a : HandAngles) : Decidable (handInRange a) := by
  unfold handInRange; infer_instance

/-- The observable outcome of one `POST /hand` request: HTTP status code, the
JSON `status` field (`true` = `"success"`), the echoed `angles` object when
present, the updated module state and the device-write trace. -/
structure HandResult where
  code : Nat
  ok : Bool
  angles : Option HandAngles
  state : ServerState
  writes : List DeviceWrite
deriving DecidableEq, Repr

/-- The body-processing part of `set_hand` in `src/rasbery_h.py` (lines
236-293), after the connection pre-check: missing/empty body is a 400;
otherwise extract, clamp, format and send, always answering HTTP 200 with
`status` mirroring the send outcome.  `w0` carries writes already performed
by the pre-check. -/
def rasb_set_hand_body (writeOk : Bool) (body : Option HandPayload)
    (st : ServerState) (w0 : List DeviceWrite) : HandResult :=
  match body with
  | none => ⟨400, false, none, st, w0⟩
  | some p =>
      let a := clampHand (rasb_extract_angles p)
      let command := handCommand a
      let r := rasb_send_to_hand_arduino writeOk command st
      ⟨200, r.1.1, some a, r.2.1, w0 ++ r.2.2⟩

/-- `set_hand` of `src/rasbery_h.py` (lines 217-293): first the connection
pre-check — if the hand link is not open, one `init_hand_arduino` is
attempted and a failure is answered with HTTP 503 — then the body is
processed.  A missing or falsy JSON body (`None` or `{}`) is modelled as
`body = none`. -/
def rasb_set_hand (connectOk writeOk : Bool) (body : Option HandPayload)
    (st : ServerState) : HandResult :=
  if st.handLink ≠ some true then
    match init_hand_arduino connectOk st with
    | (false, st1, w) => ⟨503, false, none, st1, w⟩
    | (true, st1, w) => rasb_set_hand_body writeOk body st1 w
  else
    rasb_set_hand_body writeOk body st []

/-- `set_hand` of `src/Volt/rasbery_h.py` (lines 306-370): no connection
pre-check; the lazy reconnect lives inside `send_to_hand_arduino`, and a
failed send (including a failed reconnect) is still answered with HTTP 200
and `status: "error"`. -/
def volt_set_hand (connectOk writeOk : Bool) (body : Option HandPayload)
    (st : ServerState) : HandResult :=
  match body with
  | none => ⟨400, false, none, st, []⟩
  | some p =>
      let a := clampHand (volt_extract_angles p)
      let command := handCommand a
      let r := volt_send_to_hand_arduino connectOk writeOk command st
      ⟨200, r.1.1, some a, r.2.1, r.2.2⟩

/-- Face range constants of both variants. -/
def EYE_MIN : Int := 70

/-- Upper eye bound. -/
def EYE_MAX : Int := 110

/-- Neutral eye angle. -/
def EYE_CENTER : Int := 90

/-- Lower mouth bound. -/
def MOUTH_MIN : Int := 0

/-- Upper mouth bound. -/
def MOUTH_MAX : Int := 80

/-- The recognized fields of a `POST /face` JSON body. -/
structure FacePayload where
  eyes : Option Int
  mouth : Option Int
deriving DecidableEq, Repr

/-- The `command` string accumulated by `set_face` (identical in both
variants, lines 324-336 / 390-402): `"E<eyes> "` when `eyes` is present,
then `"M<mouth>"` when `mouth` is present, each clamped first. -/
def faceCommandRaw (p : FacePayload) : String :=
  (match p.eyes with
   | some e => "E" ++ toString (clamp EYE_MIN EYE_MAX e) ++ " "
   | none => "") ++
  (match p.mouth with
   | some m => "M" ++ toString (clamp MOUTH_MIN MOUTH_MAX m)
   | none => "")

/-- The observable outcome of one `POST /face`, `POST /face_expression` or
`POST /face_look` request. -/
structure FaceResult where
  code : Nat
  ok : Bool
  state : ServerState
  writes : List DeviceWrite
deriving DecidableEq, Repr

/-- The body-processing part of `set_face` in `src/rasbery_h.py` (lines
315-363): missing/empty body is a 400; a body with neither recognized field
leaves `command` empty and is a 400 without a send; otherwise the stripped
command is sent (Python `command.strip()` modelled by `pyStrip`). -/
def rasb_set_face_body (writeOk : Bool) (body : Option FacePayload)
    (st : ServerState) (w0 : List DeviceWrite) : FaceResult :=
  match body with
  | none => ⟨400, false, st, w0⟩
  | some p =>
      let command := faceCommandRaw p
      if command ≠ "" then
        let r := rasb_send_to_face_arduino writeOk (pyStrip command) st
        ⟨200, r.1.1, r.2.1, w0 ++ r.2.2⟩
      else
        ⟨400, false, st, w0⟩

/-- `set_face` of `src/rasbery_h.py` (lines 296-363): connection pre-check
(503 on failed reconnect) and then the body processing. -/
def rasb_set_face (connectOk writeOk : Bool) (body : Option FacePayload)
    (st : ServerState) : FaceResult :=
  if st.faceLink ≠ some true then
    match init_face_arduino connectOk st with
    | (false, st1, w) => ⟨503, false, st1, w⟩
    | (true, st1, w) => rasb_set_face_body writeOk body st1 w
  else
    rasb_set_face_body writeOk body st []

/-- `set_face` of `src/Volt/rasbery_h.py` (lines 374-429): no pre-check, the
lazy reconnect lives inside `send_to_face_arduino`. -/
def volt_set_face (connectOk writeOk : Bool) (body : Option FacePayload)
    (st : ServerState) : FaceResult :=
  match body with
  | none => ⟨400, false, st, []⟩
  | some p =>
      let command := faceCommandRaw p
      if command ≠ "" then
        let r := volt_send_to_face_arduino connectOk writeOk (pyStrip command) st
        ⟨200, r.1.1, r.2.1, r.2.2⟩
      else
        ⟨400, false, st, []⟩

/-- The `expressions` table (identical in both variants). -/
def expressions : List (String × Int × Int) :=
  [("neutral", EYE_CENTER, MOUTH_MIN), ("happy", 85, 60),
   ("surprise", EYE_MAX, 40), ("sad", EYE_MIN, 20),
   ("blink", 100, MOUTH_MIN), ("angry", 75, 10),
   ("talking", EYE_CENTER, 60)]

/-- `f"E{angles['eyes']} M{angles['mouth']}"`. -/
def exprCommand (e m : Int) : String :=
  "E" ++ toString e ++ " M" ++ toString m

/-- The body-processing part of `set_face_expression` (identical in both
variants up to the send function): `data.get('expression', '').lower()` is
looked up in the closed table; an unknown name is a 400 without a send.  The
`expression` field of the body is `none` when absent from the JSON object. -/
def expr_body (send : String → ServerState → (Bool × String) × ServerState × List DeviceWrite)
    (body : Option (Option String)) (st : ServerState) (w0 : List DeviceWrite) :
    FaceResult :=
  match body with
  | none => ⟨400, false, st, w0⟩
  | some exprField =>
      let expression := pyLower (exprField.getD "")
      match expressions.lookup expression with
      | some em =>
          let r := send (exprCommand em.1 em.2) st
          ⟨200, r.1.1, r.2.1, w0 ++ r.2.2⟩
      | none => ⟨400, false, st, w0⟩

/-- `set_face_expression` of `src/rasbery_h.py` (lines 365-434): connection
pre-check first (a reconnect, with its test write, happens before the body
is even parsed), then the table lookup. -/
def rasb_set_face_expression (connectOk writeOk : Bool)
    (body : Option (Option String)) (st : ServerState) : FaceResult :=
  if st.faceLink ≠ some true then
    match init_face_arduino connectOk st with
    | (false, st1, w) => ⟨503, false, st1, w⟩
    | (true, st1, w) => expr_body (rasb_send_to_face_arduino writeOk) body st1 w
  else
    expr_body (rasb_send_to_face_arduino writeOk) body st []

/-- `set_face_expression` of `src/Volt/rasbery_h.py` (lines 432-489): no
pre-check. -/
def volt_set_face_expression (connectOk writeOk : Bool)
    (body : Option (Option String)) (st : ServerState) : FaceResult :=
  expr_body (volt_send_to_face_arduino connectOk writeOk) body st []

/-- The observable outcome of one `GET /status` request.  `handAttempts` /
`faceAttempts` count the `init_*_arduino` calls made while handling the
request. -/
structure StatusResult where
  hand_connected : Bool
  face_connected : Bool
  camera_running : Bool
  handAttempts : Nat
  faceAttempts : Nat
  state : ServerState
  writes : List DeviceWrite
deriving DecidableEq, Repr

/-- `get_status` (identical logic in both variants, lines 580-615 /
643-680): each link already reporting `is_open` is declared connected
without being touched; otherwise exactly one `init_*_arduino` call is made
and its boolean outcome is reported.  The camera is only read through the
`camera_running` flag; the `try/except` blocks make the handler total. -/
def get_status (handOk faceOk : Bool) (st : ServerState) : StatusResult :=
  let h :=
    if st.handLink = some true then (true, st, ([] : List DeviceWrite), 0)
    else
      match init_hand_arduino handOk st with
      | (b, st1, w) => (b, st1, w, 1)
  let f :=
    if h.2.1.faceLink = some true then (true, h.2.1, ([] : List DeviceWrite), 0)
    else
      match init_face_arduino faceOk h.2.1 with
      | (b, st1, w) => (b, st1, w, 1)
  ⟨h.1, f.1, f.2.1.cameraRunning, h.2.2.2, f.2.2.2, f.2.1, h.2.2.1 ++ f.2.2.1⟩

/-- The observable outcome of one `POST /camera/stop` request. -/
structure StopResult where
  code : Nat
  ok : Bool
  state : ServerState
deriving DecidableEq, Repr

/-- `stop_camera` (both variants, lines 484-515 / 541-574): clears
`camera_running`, releases and drops the camera handle if present, and
answers HTTP 200.  The `latest_frame` slot is not written. -/
def stop_camera (st : ServerState) : StopResult :=
  let st1 := { st with cameraRunning := false }
  let st2 := if st1.camera ≠ none then { st1 with camera := none } else st1
  ⟨200, true, st2⟩

/-- Eye-pan servo bounds of `src/Volt/rasbery_h.py` (line 12). -/
def EYE_PAN_MIN : Int := 70

/-- Upper pan bound. -/
def EYE_PAN_MAX : Int := 110

/-- Lower tilt bound (line 13). -/
def EYE_TILT_MIN : Int := 60

/-- Upper tilt bound. -/
def EYE_TILT_MAX : Int := 100

/-- Python's `round` on the exact rational value: round half to even
(`int(round(x))` in `face_to_servo`).  Real Python computes in binary
floating point; the embedding idealizes the arithmetic as exact rationals. -/
def pyRound (q : ℚ) : Int :=
  let f := ⌊q⌋
  let r := q - f
  if r < 1 / 2 then f
  else if 1 / 2 < r then f + 1
  else if f % 2 = 0 then f else f + 1

/-- `face_to_servo` of `src/Volt/rasbery_h.py` (lines 754-767): normalize
pixel coordinates to [0, 1] (clamping first), then interpolate linearly into
the servo ranges, mirrored horizontally, and round. -/
def face_to_servo (x_px y_px : Int) (w_px h_px : ℚ) : Int × Int :=
  let nx : ℚ := max 0 (min 1 ((x_px : ℚ) / w_px))
  let ny : ℚ := max 0 (min 1 ((y_px : ℚ) / h_px))
  let pan : ℚ := (EYE_PAN_MIN : ℚ) + (1 - nx) * ((EYE_PAN_MAX : ℚ) - (EYE_PAN_MIN : ℚ))
  let tilt : ℚ := (EYE_TILT_MIN : ℚ) + ny * ((EYE_TILT_MAX : ℚ) - (EYE_TILT_MIN : ℚ))
  (pyRound pan, pyRound tilt)

/-- The pan angle as the specification words it: the linear map
`PAN_MIN + (1 - x/width) * (PAN_MAX - PAN_MIN)` rounded to the nearest
integer degree and then clamped to the servo range. -/
def pan_spec (x : Int) : Int :=
  clamp EYE_PAN_MIN EYE_PAN_MAX
    (pyRound ((EYE_PAN_MIN : ℚ) + (1 - (x : ℚ) / 640) * ((EYE_PAN_MAX : ℚ) - (EYE_PAN_MIN : ℚ))))

/-- The tilt angle as the specification words it. -/
def tilt_spec (y : Int) : Int :=
  clamp EYE_TILT_MIN EYE_TILT_MAX
    (pyRound ((EYE_TILT_MIN : ℚ) + ((y : ℚ) / 480) * ((EYE_TILT_MAX : ℚ) - (EYE_TILT_MIN : ℚ))))

/-- The recognized fields of a `POST /face_look` JSON body. -/
structure FaceLookPayload where
  x : Option Int
  y : Option Int
deriving DecidableEq, Repr

/-- The observable outcome of one `POST /face_look` request. -/
structure LookResult where
  code : Nat
  ok : Bool
  pan : Int
  tilt : Int
  state : ServerState
  writes : List DeviceWrite
deriving DecidableEq, Repr

/-- `face_look` of `src/Volt/rasbery_h.py` (lines 770-790): `request.json
or {}` (a missing body behaves as the empty object), defaults x=320 y=240,
`face_to_servo`, then the line `f"E{pan} T{tilt}\n"` is sent on the face
link; the HTTP status is always 200, with `status` mirroring the send. -/
def face_look (connectOk writeOk : Bool) (body : Option FaceLookPayload)
    (st : ServerState) : LookResult :=
  let data := body.getD ⟨none, none⟩
  let x := data.x.getD 320
  let y := data.y.getD 240
  let pt := face_to_servo x y 640 480
  let cmd := "E" ++ toString pt.1 ++ " T" ++ toString pt.2 ++ "\n"
  let r := volt_send_to_face_arduino connectOk writeOk cmd st
  ⟨200, r.1.1, pt.1, pt.2, r.2.1, r.2.2⟩

/-- A state with both serial links open and the camera off: the normal
operating state after a successful startup. -/
def stBothOpen : ServerState := ⟨some true, some true, none, false, none⟩

/-- A state with both serial handles still `None`: the state of a server
started with neither device plugged in. -/
def stBothClosed : ServerState := ⟨none, none, none, false, none⟩

/-!  Helper lemmas about the clamping idiom, the newline handling and the
rounding of `face_to_servo`. -/

theorem clamp_lower (lo hi v : Int) : lo ≤ clamp lo hi v :=
  le_max_left _ _

theorem clamp_upper {lo hi : Int} (h : lo ≤ hi) (v : Int) : clamp lo hi v ≤ hi :=
  max_le h (min_le_left _ _)

theorem clampHand_inRange (a : HandAngles) : handInRange (clampHand a) := by
  refine ⟨clamp_lower _ _ _, clamp_upper (by norm_num) _, ?_, ?_, ?_, ?_, ?_, ?_, ?_, ?_, ?_, ?_, ?_, ?_⟩ <;>
    first
      | exact clamp_lower _ _ _
      | exact clamp_upper (by norm_num) _

theorem ensureNewline_append_newline (s : String) :
    ensureNewline (s ++ "\n") = s ++ "\n" := by
  have hdata : (s ++ "\n").data = s.data ++ ['\n'] := String.data_append s "\n"
  have hlast : (s ++ "\n").data.getLast? = some '\n' := by
    rw [hdata, List.getLast?_append_of_ne_nil s.data (by simp)]
    rfl
  simp [ensureNewline, endsWithNewline, hlast]

theorem floor_le_pyRound (q : ℚ) : ⌊q⌋ ≤ pyRound q := by
  simp only [pyRound]
  split_ifs <;> first | exact le_rfl | exact (lt_add_one _).le

theorem pyRound_le_floor_add_one (q : ℚ) : pyRound q ≤ ⌊q⌋ + 1 := by
  simp only [pyRound]
  split_ifs <;> first | exact le_rfl | exact (lt_add_one _).le

theorem pyRound_intCast (n : Int) : pyRound (n : ℚ) = n := by
  simp only [pyRound, Int.floor_intCast, sub_self]
  norm_num

theorem int_le_pyRound {a : Int} {q : ℚ} (h : (a : ℚ) ≤ q) : a ≤ pyRound q :=
  le_trans (Int.le_floor.mpr h) (floor_le_pyRound q)

theorem pyRound_le_int {b : Int} {q : ℚ} (h : q ≤ (b : ℚ)) : pyRound q ≤ b := by
  rcases eq_or_lt_of_le h with he | hlt
  · rw [he, pyRound_intCast]
  · have h1 : ⌊q⌋ < b := Int.floor_lt.mpr hlt
    have h2 := pyRound_le_floor_add_one q
    omega

theorem pyRound_eq_of_eq_intCast {q : ℚ} {n : Int} (h : q = (n : ℚ)) :
    pyRound q = n := by
  rw [h, pyRound_intCast]

theorem pyRound_clamp {a b : Int} (hab : a ≤ b) (q : ℚ) :
    pyRound (max (a : ℚ) (min (b : ℚ) q)) = clamp a b (pyRound q) := by
  have habQ : (a : ℚ) ≤ (b : ℚ) := by exact_mod_cast hab
  unfold clamp
  rcases le_total q a with h | h
  · rw [min_eq_right (h.trans habQ), max_eq_left h, pyRound_intCast,
      min_eq_right ((pyRound_le_int h).trans hab), max_eq_left (pyRound_le_int h)]
  · rcases le_total q b with h2 | h2
    · rw [min_eq_right h2, max_eq_right h,
        min_eq_right (pyRound_le_int h2), max_eq_right (int_le_pyRound h)]
    · rw [min_eq_left h2, max_eq_right habQ, pyRound_intCast,
        min_eq_left (int_le_pyRound h2), max_eq_right hab]

theorem pan_affine (t : ℚ) :
    (70 : ℚ) + (1 - max 0 (min 1 t)) * 40 = max 70 (min 110 (70 + (1 - t) * 40)) := by
  rcases le_total t 0 with h0 | h0
  · rw [min_eq_right (h0.trans (by norm_num)), max_eq_left h0,
      min_eq_left (by linarith), max_eq_right (by norm_num)]
    norm_num
  · rcases le_total 1 t with h1 | h1
    · rw [min_eq_left h1, max_eq_right (by norm_num : (0 : ℚ) ≤ 1),
        min_eq_right (by linarith), max_eq_left (by linarith)]
      norm_num
    · rw [min_eq_right h1, max_eq_right h0,
        min_eq_right (by linarith), max_eq_right (by linarith)]

theorem tilt_affine (t : ℚ) :
    (60 : ℚ) + max 0 (min 1 t) * 40 = max 60 (min 100 (60 + t * 40)) := by
  rcases le_total t 0 with h0 | h0
  · rw [min_eq_right (h0.trans (by norm_num)), max_eq_left h0,
      min_eq_right (by linarith), max_eq_left (by linarith)]
    norm_num
  · rcases le_total 1 t with h1 | h1
    · rw [min_eq_left h1, max_eq_right (by norm_num : (0 : ℚ) ≤ 1),
        min_eq_left (by linarith), max_eq_right (by norm_num)]
      norm_num
    · rw [min_eq_right h1, max_eq_right h0,
        min_eq_right (by linarith), max_eq_right (by linarith)]

theorem pyRound_clamp_pan (q : ℚ) :
    pyRound (max 70 (min 110 q)) = clamp 70 110 (pyRound q) := by
  have h := pyRound_clamp (a := 70) (b := 110) (by norm_num) q
  push_cast at h
  exact h

theorem pyRound_clamp_tilt (q : ℚ) :
    pyRound (max 60 (min 100 q)) = clamp 60 100 (pyRound q) := by
  have h := pyRound_clamp (a := 60) (b := 100) (by norm_num) q
  push_cast at h
  exact h

theorem face_to_servo_spec (x y : Int) :
    face_to_servo x y 640 480 = (pan_spec x, tilt_spec y) := by
  unfold face_to_servo pan_spec tilt_spec EYE_PAN_MIN EYE_PAN_MAX EYE_TILT_MIN EYE_TILT_MAX
  refine Prod.ext ?_ ?_
  · show pyRound _ = clamp 70 110 (pyRound _)
    rw [← pyRound_clamp_pan]
    congr 1
    push_cast
    rw [show ((110 : ℚ) - 70) = 40 by norm_num]
    exact pan_affine ((x : ℚ) / 640)
  · show pyRound _ = clamp 60 100 (pyRound _)
    rw [← pyRound_clamp_tilt]
    congr 1
    push_cast
    rw [show ((100 : ℚ) - 60) = 40 by norm_num]
    exact tilt_affine ((y : ℚ) / 480)

theorem pan_spec_eval {x n : Int} (h : (70 : ℚ) + (1 - (x : ℚ) / 640) * 40 = (n : ℚ))
    (hlo : 70 ≤ n) (hhi : n ≤ 110) : pan_spec x = n := by
  unfold pan_spec EYE_PAN_MIN EYE_PAN_MAX
  push_cast
  norm_num
  rw [pyRound_eq_of_eq_intCast h]
  simp only [clamp]
  omega

theorem tilt_spec_eval {y n : Int} (h : (60 : ℚ) + ((y : ℚ) / 480) * 40 = (n : ℚ))
    (hlo : 60 ≤ n) (hhi : n ≤ 100) : tilt_spec y = n := by
  unfold tilt_spec EYE_TILT_MIN EYE_TILT_MAX
  push_cast
  norm_num
  rw [pyRound_eq_of_eq_intCast h]
  simp only [clamp]
  omega

theorem pan_spec_bounds (x : Int) : 70 ≤ pan_spec x ∧ pan_spec x ≤ 110 := by
  unfold pan_spec EYE_PAN_MIN EYE_PAN_MAX
  exact ⟨clamp_lower _ _ _, clamp_upper (by norm_num) _⟩

theorem tilt_spec_bounds (y : Int) : 60 ≤ tilt_spec y ∧ tilt_spec y ≤ 100 := by
  unfold tilt_spec EYE_TILT_MIN EYE_TILT_MAX
  exact ⟨clamp_lower _ _ _, clamp_upper (by norm_num) _⟩

theorem toString_no_M_of_bounds {n : Int} (h1 : 60 ≤ n) (h2 : n ≤ 110) :
    'M' ∉ (toString n).data := by
  have H : ∀ m ∈ Finset.Icc (60 : ℤ) 110, 'M' ∉ (toString m).data := by decide
  exact H n (Finset.mem_Icc.mpr ⟨h1, h2⟩)

theorem faceCommandRaw_ne_empty {p : FacePayload}
    (h : p.eyes ≠ none ∨ p.mouth ≠ none) : faceCommandRaw p ≠ "" := by
  unfold faceCommandRaw
  rcases hp : p.eyes with _ | e <;> rcases hq : p.mouth with _ | m <;>
    simp_all <;>
    intro hc <;>
    have hl := congrArg String.length hc <;>
    simp [String.length_append] at hl <;>
    first
      | exact absurd hl.1 (by decide)
      | exact absurd hl.1.1 (by decide)
      | exact absurd hl.1.1.1 (by decide)

/-!  The claims. -/

/-- C1: for every `POST /hand` payload, whatever integer values are supplied,
each channel of the command built and echoed back is clamped into its
declared range before formatting and transmission — wrist into [0, 90], each
of f1..f6 into [0, 180]; wrist=999 yields 90 and f1=-5 yields 0; out-of-range
input is never rejected (never HTTP 400), only clamped.  Both variants. -/
theorem hand_channels_clamped (p : HandPayload) (st : ServerState) (c w : Bool)
    (hopen : st.handLink = some true) :
    (rasb_set_hand c w (some p) st).code = 200 ∧
    (rasb_set_hand c w (some p) st).angles = some (clampHand (rasb_extract_angles p)) ∧
    (volt_set_hand c w (some p) st).code = 200 ∧
    (volt_set_hand c w (some p) st).angles = some (clampHand (volt_extract_angles p)) ∧
    (rasb_set_hand c true (some p) st).writes =
      [DeviceWrite.handCmd (ensureNewline (handCommand (clampHand (rasb_extract_angles p))))] ∧
    (volt_set_hand c true (some p) st).writes =
      [DeviceWrite.handCmd (ensureNewline (handCommand (clampHand (volt_extract_angles p))))] ∧
    handInRange (clampHand (rasb_extract_angles p)) ∧
    handInRange (clampHand (volt_extract_angles p)) ∧
    (∀ (st' : ServerState) (c' w' : Bool),
      (rasb_set_hand c' w' (some p) st').code ≠ 400 ∧
      (volt_set_hand c' w' (some p) st').code ≠ 400) ∧
    clampHand (rasb_extract_angles ⟨some 999, some (-5), some 0, some 0, some 0, some 0, some 0⟩) =
      ⟨90, 0, 0, 0, 0, 0, 0⟩ := by
  refine ⟨?_, ?_, ?_, ?_, ?_, ?_, clampHand_inRange _, clampHand_inRange _, ?_, by decide⟩
  · simp [rasb_set_hand, rasb_set_hand_body, rasb_send_to_hand_arduino, hopen]
  · simp [rasb_set_hand, rasb_set_hand_body, rasb_send_to_hand_arduino, hopen]
  · simp [volt_set_hand]
  · simp [volt_set_hand]
  · simp [rasb_set_hand, rasb_set_hand_body, rasb_send_to_hand_arduino, hopen]
  · simp [volt_set_hand, volt_send_to_hand_arduino, volt_hand_write, hopen]
  · intro st' c' w'
    constructor
    · by_cases h : st'.handLink = some true
      · simp [rasb_set_hand, rasb_set_hand_body, rasb_send_to_hand_arduino, h]
      · cases c' <;>
          simp [rasb_set_hand, rasb_set_hand_body, rasb_send_to_hand_arduino,
            init_hand_arduino, h]
    · simp [volt_set_hand]

/-- Witness for `hand_channels_clamped`: wrist=999 is echoed as 90 and f1=-5
as 0 on a concrete open-link state. -/
theorem hand_channels_clamped_witness :
    (rasb_set_hand true true
        (some ⟨some 999, some (-5), none, none, none, none, none⟩) stBothOpen).angles =
      some ⟨90, 0, 0, 0, 0, 0, 0⟩ ∧
    (rasb_set_hand true true
        (some ⟨some 999, some (-5), none, none, none, none, none⟩) stBothOpen).code = 200 := by
  have h := hand_channels_clamped ⟨some 999, some (-5), none, none, none, none, none⟩
    stBothOpen true true rfl
  refine ⟨?_, h.1⟩
  rw [h.2.1]
  decide

/-- C2 counterexample: in the Volt variant, a `POST /hand` on a server whose
hand link is down and whose single reconnect attempt fails is answered with
HTTP 200 (carrying `status: "error"`), not with HTTP 503 as the claim
states. -/
theorem volt_unavailable_answers_200 :
    (volt_set_hand false true
        (some ⟨some 10, none, none, none, none, none, none⟩) stBothClosed).code = 200 ∧
    (volt_set_hand false true
        (some ⟨some 10, none, none, none, none, none, none⟩) stBothClosed).ok = false ∧
    (volt_set_hand false true
        (some ⟨some 10, none, none, none, none, none, none⟩) stBothClosed).code ≠ 503 := by
  decide

/-- C2 amended: when the target link is not open and the single reconnect
attempt fails, the Raspberry variant answers HTTP 503 with `status: "error"`
for `/hand`, `/face` and `/face_expression`, leaving the link disconnected
for the next lazy reconnect; the Volt variant leaves the link disconnected
too but answers HTTP 200 with `status: "error"` (its handlers have no
connection pre-check, so the failure surfaces from `send_to_*`). -/
theorem device_unavailable_behaviour (st : ServerState) (w : Bool)
    (bodyH : Option HandPayload) (p : HandPayload)
    (bodyF : Option FacePayload) (bodyE : Option (Option String)) (pf : FacePayload) :
    (st.handLink ≠ some true →
      (rasb_set_hand false w bodyH st).code = 503 ∧
      (rasb_set_hand false w bodyH st).ok = false ∧
      (rasb_set_hand false w bodyH st).state.handLink = none ∧
      (volt_set_hand false w (some p) st).code = 200 ∧
      (volt_set_hand false w (some p) st).ok = false ∧
      (volt_set_hand false w (some p) st).state.handLink = none) ∧
    (st.faceLink ≠ some true →
      (rasb_set_face false w bodyF st).code = 503 ∧
      (rasb_set_face false w bodyF st).ok = false ∧
      (rasb_set_face false w bodyF st).state.faceLink = none ∧
      (rasb_set_face_expression false w bodyE st).code = 503 ∧
      (rasb_set_face_expression false w bodyE st).ok = false ∧
      (rasb_set_face_expression false w bodyE st).state.faceLink = none ∧
      (faceCommandRaw pf ≠ "" →
        (volt_set_face false w (some pf) st).code = 200 ∧
        (volt_set_face false w (some pf) st).ok = false ∧
        (volt_set_face false w (some pf) st).state.faceLink = none) ∧
      (volt_set_face_expression false w (some (some "happy")) st).code = 200 ∧
      (volt_set_face_expression false w (some (some "happy")) st).ok = false ∧
      (volt_set_face_expression false w (some (some "happy")) st).state.faceLink = none) := by
  constructor
  · intro hh
    refine ⟨?_, ?_, ?_, ?_, ?_, ?_⟩ <;>
      simp [rasb_set_hand, volt_set_hand, volt_send_to_hand_arduino,
        init_hand_arduino, volt_hand_write, hh]
  · intro hf
    have hface : st.faceLink = none ∨ st.faceLink = some false := by
      rcases hb : st.faceLink with _ | b
      · exact Or.inl rfl
      · cases b
        · exact Or.inr rfl
        · exact absurd hb hf
    refine ⟨?_, ?_, ?_, ?_, ?_, ?_, ?_, ?_, ?_, ?_⟩
    · simp [rasb_set_face, init_face_arduino, hf]
    · simp [rasb_set_face, init_face_arduino, hf]
    · simp [rasb_set_face, init_face_arduino, hf]
    · simp [rasb_set_face_expression, init_face_arduino, hf]
    · simp [rasb_set_face_expression, init_face_arduino, hf]
    · simp [rasb_set_face_expression, init_face_arduino, hf]
    · intro hcmd
      rcases hface with h | h <;>
        refine ⟨?_, ?_, ?_⟩ <;>
          simp [volt_set_face, volt_send_to_face_arduino, init_face_arduino,
            volt_face_write, h, hcmd]
    · rcases hface with h | h <;>
        (simp [volt_set_face_expression, expr_body, expressions,
          volt_send_to_face_arduino, init_face_arduino, volt_face_write, h,
          pyLower, EYE_CENTER, MOUTH_MIN, EYE_MIN, EYE_MAX]) <;> rfl
    · rcases hface with h | h <;>
        (simp [volt_set_face_expression, expr_body, expressions,
          volt_send_to_face_arduino, init_face_arduino, volt_face_write, h,
          pyLower, EYE_CENTER, MOUTH_MIN, EYE_MIN, EYE_MAX]) <;> rfl
    · rcases hface with h | h <;>
        (simp [volt_set_face_expression, expr_body, expressions,
          volt_send_to_face_arduino, init_face_arduino, volt_face_write, h,
          pyLower, EYE_CENTER, MOUTH_MIN, EYE_MIN, EYE_MAX]) <;> rfl

/-- Witness for `device_unavailable_behaviour` on a concrete all-closed
state: the Raspberry `/hand` answers 503 while the Volt `/hand` answers 200,
both with the link left disconnected. -/
theorem device_unavailable_behaviour_witness :
    (rasb_set_hand false true none stBothClosed).code = 503 ∧
    (volt_set_hand false true
        (some ⟨some 10, none, none, none, none, none, none⟩) stBothClosed).code = 200 ∧
    (rasb_set_face_expression false true (some (some "happy")) stBothClosed).code = 503 := by
  have h := device_unavailable_behaviour stBothClosed true none
    ⟨some 10, none, none, none, none, none, none⟩ none (some (some "happy")) ⟨none, none⟩
  exact ⟨(h.1 (by decide)).1, (h.1 (by decide)).2.2.2.1, (h.2 (by decide)).2.2.2.1⟩

/-- C3 counterexample: for the identical `POST /hand` payload
`{wrist:30, f1:0, f2:0, f3:0, f6:0}` (f4 and f5 omitted) and the identical
open-link state, the Raspberry variant sends `"30,0,0,0,0,0,0\n"` while the
Volt variant sends `"30,0,0,0,180,180,0\n"`, and the echoed angle objects
differ as well — the variants are not behaviourally equivalent. -/
theorem hand_variants_differ_on_defaults :
    (rasb_set_hand true true
        (some ⟨some 30, some 0, some 0, some 0, none, none, some 0⟩) stBothOpen).writes =
      [DeviceWrite.handCmd "30,0,0,0,0,0,0\n"] ∧
    (volt_set_hand true true
        (some ⟨some 30, some 0, some 0, some 0, none, none, some 0⟩) stBothOpen).writes =
      [DeviceWrite.handCmd "30,0,0,0,180,180,0\n"] ∧
    (rasb_set_hand true true
        (some ⟨some 30, some 0, some 0, some 0, none, none, some 0⟩) stBothOpen).writes ≠
      (volt_set_hand true true
        (some ⟨some 30, some 0, some 0, some 0, none, none, some 0⟩) stBothOpen).writes ∧
    (rasb_set_hand true true
        (some ⟨some 30, some 0, some 0, some 0, none, none, some 0⟩) stBothOpen).angles ≠
      (volt_set_hand true true
        (some ⟨some 30, some 0, some 0, some 0, none, none, some 0⟩) stBothOpen).angles := by
  decide

/-- C3 amended: with the device links open, the two variants produce the same
device command string, echoed clamped angles, HTTP status code and `status`
field for every `/hand` payload that supplies `f4` and `f5`, and for every
`/face` and `/face_expression` request; a `/hand` payload omitting `f4` or
`f5` is filled with different defaults (0 in the Raspberry variant, 180 in
the Volt variant), and with a closed link the HTTP statuses differ (503
versus 200). -/
theorem hand_variants_agree_with_f4_f5 (p : HandPayload) (st : ServerState)
    (c w : Bool) (bodyF : Option FacePayload) (bodyE : Option (Option String))
    (h4 : p.f4 ≠ none) (h5 : p.f5 ≠ none)
    (hhand : st.handLink = some true) (hface : st.faceLink = some true) :
    ((rasb_set_hand c w (some p) st).code = (volt_set_hand c w (some p) st).code ∧
     (rasb_set_hand c w (some p) st).ok = (volt_set_hand c w (some p) st).ok ∧
     (rasb_set_hand c w (some p) st).angles = (volt_set_hand c w (some p) st).angles ∧
     (rasb_set_hand c w (some p) st).writes = (volt_set_hand c w (some p) st).writes) ∧
    ((rasb_set_face c w bodyF st).code = (volt_set_face c w bodyF st).code ∧
     (rasb_set_face c w bodyF st).ok = (volt_set_face c w bodyF st).ok ∧
     (rasb_set_face c w bodyF st).writes = (volt_set_face c w bodyF st).writes) ∧
    ((rasb_set_face_expression c w bodyE st).code =
       (volt_set_face_expression c w bodyE st).code ∧
     (rasb_set_face_expression c w bodyE st).ok =
       (volt_set_face_expression c w bodyE st).ok ∧
     (rasb_set_face_expression c w bodyE st).writes =
       (volt_set_face_expression c w bodyE st).writes) := by
  have hext : rasb_extract_angles p = volt_extract_angles p := by
    obtain ⟨v4, h4'⟩ := Option.ne_none_iff_exists'.mp h4
    obtain ⟨v5, h5'⟩ := Option.ne_none_iff_exists'.mp h5
    simp [rasb_extract_angles, volt_extract_angles, h4', h5']
  refine ⟨?_, ?_, ?_⟩
  · cases w <;>
      simp [rasb_set_hand, rasb_set_hand_body, rasb_send_to_hand_arduino,
        volt_set_hand, volt_send_to_hand_arduino, volt_hand_write, hhand, hext]
  · rcases bodyF with _ | pface
    · simp [rasb_set_face, rasb_set_face_body, volt_set_face, hface]
    · by_cases hc : faceCommandRaw pface = "" <;> cases w <;>
        simp [rasb_set_face, rasb_set_face_body, rasb_send_to_face_arduino,
          volt_set_face, volt_send_to_face_arduino, volt_face_write, hface, hc]
  · rcases bodyE with _ | ex
    · simp [rasb_set_face_expression, expr_body, volt_set_face_expression, hface]
    · rcases hl : expressions.lookup (pyLower (ex.getD "")) with _ | em <;> cases w <;>
        simp [rasb_set_face_expression, expr_body, volt_set_face_expression,
          rasb_send_to_face_arduino, volt_send_to_face_arduino, volt_face_write,
          hface, hl]

/-- Witness for `hand_variants_agree_with_f4_f5` on a fully specified
payload: both variants write the same device line. -/
theorem hand_variants_agree_with_f4_f5_witness :
    (rasb_set_hand true true
        (some ⟨some 30, some 0, some 0, some 0, some 180, some 180, some 0⟩) stBothOpen).writes =
      (volt_set_hand true true
        (some ⟨some 30, some 0, some 0, some 0, some 180, some 180, some 0⟩) stBothOpen).writes := by
  exact (hand_variants_agree_with_f4_f5
    ⟨some 30, some 0, some 0, some 0, some 180, some 180, some 0⟩ stBothOpen
    true true none none (by decide) (by decide) rfl rfl).1.2.2.2

/-- C4 counterexample: a `POST /face_expression` with the unknown name
"ecstatic" on a Raspberry server whose face link is down is answered with
HTTP 400, yet a device write (the reconnect test write `"E90 M0\n"` of
`init_face_arduino`) was performed while handling the request — the
connection pre-check runs before validation. -/
theorem probe_write_before_validation :
    (rasb_set_face_expression true true (some (some "ecstatic")) stBothClosed).code = 400 ∧
    (rasb_set_face_expression true true (some (some "ecstatic")) stBothClosed).writes =
      [DeviceWrite.faceTest] ∧
    (rasb_set_face_expression true true (some (some "ecstatic")) stBothClosed).writes ≠ [] := by
  decide

/-- C4 amended: every request that fails validation (missing/empty JSON
body, a `/face` body with no recognized field, an unknown expression name)
is answered with HTTP 400; in the Volt variant no device write of any kind
is performed while handling it, and in the Raspberry variant the same holds
provided the target link is already open — when the link is down, the
Raspberry connection pre-check performs a reconnect attempt (with its test
write) before validation runs. -/
theorem validation_400_no_device_write (st : ServerState) (c w : Bool)
    (pf : FacePayload) (ex : Option String) :
    (volt_set_hand c w none st = ⟨400, false, none, st, []⟩) ∧
    (volt_set_face c w none st = ⟨400, false, st, []⟩) ∧
    (faceCommandRaw pf = "" → volt_set_face c w (some pf) st = ⟨400, false, st, []⟩) ∧
    (volt_set_face_expression c w none st = ⟨400, false, st, []⟩) ∧
    (expressions.lookup (pyLower (ex.getD "")) = none →
      volt_set_face_expression c w (some ex) st = ⟨400, false, st, []⟩) ∧
    (st.handLink = some true → rasb_set_hand c w none st = ⟨400, false, none, st, []⟩) ∧
    (st.faceLink = some true →
      rasb_set_face c w none st = ⟨400, false, st, []⟩ ∧
      (faceCommandRaw pf = "" → rasb_set_face c w (some pf) st = ⟨400, false, st, []⟩) ∧
      rasb_set_face_expression c w none st = ⟨400, false, st, []⟩ ∧
      (expressions.lookup (pyLower (ex.getD "")) = none →
        rasb_set_face_expression c w (some ex) st = ⟨400, false, st, []⟩)) := by
  refine ⟨?_, ?_, ?_, ?_, ?_, ?_, ?_⟩
  · simp [volt_set_hand]
  · simp [volt_set_face]
  · intro hc
    simp [volt_set_face, hc]
  · simp [volt_set_face_expression, expr_body]
  · intro hl
    simp [volt_set_face_expression, expr_body, hl]
  · intro hh
    simp [rasb_set_hand, rasb_set_hand_body, hh]
  · intro hf
    refine ⟨?_, ?_, ?_, ?_⟩
    · simp [rasb_set_face, rasb_set_face_body, hf]
    · intro hc
      simp [rasb_set_face, rasb_set_face_body, hf, hc]
    · simp [rasb_set_face_expression, expr_body, hf]
    · intro hl
      simp [rasb_set_face_expression, expr_body, hf, hl]

/-- Witness for `validation_400_no_device_write`: the unknown expression
"ecstatic" on an open-link state is rejected with 400 by both variants and
no device write is recorded. -/
theorem validation_400_no_device_write_witness :
    volt_set_face_expression true true (some (some "ecstatic")) stBothOpen =
      ⟨400, false, stBothOpen, []⟩ ∧
    rasb_set_face_expression true true (some (some "ecstatic")) stBothOpen =
      ⟨400, false, stBothOpen, []⟩ := by
  have h := validation_400_no_device_write stBothOpen true true ⟨none, none⟩
    (some "ecstatic")
  exact ⟨h.2.2.2.2.1 (by decide), (h.2.2.2.2.2.2 rfl).2.2.2 (by decide)⟩

/-- C5 counterexample: in the Raspberry variant, when a write on the open
hand link throws at the transport level, the exception is caught and a
structured failure is returned, but the link does NOT transition to a
disconnected state — the handle is left exactly as it was (still open), so
the next call will not retry `connect()`. -/
theorem rasb_write_failure_keeps_link_open :
    rasb_send_to_hand_arduino false "30,0,0,0,180,180,0" stBothOpen =
      ((false, "Ошибка отправки"), stBothOpen, []) ∧
    (rasb_send_to_hand_arduino false "30,0,0,0,180,180,0" stBothOpen).2.1.handLink =
      some true ∧
    some true ≠ (none : Link) := by
  decide

/-- C5 amended: a transport-level write failure is caught at the link
boundary in both variants and surfaced as a structured `success = false`
failure with a message, never as a fault; but only the Volt variant
transitions the link to a disconnected state (`hand_arduino = None`) so that
the next call retries `connect()` — the Raspberry variant leaves the handle
untouched and still open. -/
theorem transport_error_boundary (st : ServerState) (cmd : String) (c : Bool)
    (hh : st.handLink = some true) (hf : st.faceLink = some true) :
    rasb_send_to_hand_arduino false cmd st = ((false, "Ошибка отправки"), st, []) ∧
    rasb_send_to_face_arduino false cmd st = ((false, "Ошибка отправки"), st, []) ∧
    volt_send_to_hand_arduino c false cmd st =
      ((false, "Ошибка отправки"), { st with handLink := none }, []) ∧
    volt_send_to_face_arduino c false cmd st =
      ((false, "Ошибка отправки"), { st with faceLink := none }, []) := by
  refine ⟨?_, ?_, ?_, ?_⟩
  · simp [rasb_send_to_hand_arduino, hh]
  · simp [rasb_send_to_face_arduino, hf]
  · simp [volt_send_to_hand_arduino, volt_hand_write, hh]
  · simp [volt_send_to_face_arduino, volt_face_write, hf]

/-- Witness for `transport_error_boundary` on the concrete open-link state:
the Raspberry link stays open, the Volt link becomes disconnected. -/
theorem transport_error_boundary_witness :
    (rasb_send_to_hand_arduino false "90,0,0,0,0,0,0" stBothOpen).2.1.handLink =
      some true ∧
    (volt_send_to_hand_arduino true false "90,0,0,0,0,0,0" stBothOpen).2.1.handLink =
      none := by
  have h := transport_error_boundary stBothOpen "90,0,0,0,0,0,0" true rfl rfl
  constructor
  · rw [h.1]
    rfl
  · rw [h.2.2.1]

/-- C6: for every `GET /status` request and each device link: a link whose
connection flag is already up is reported connected with no reconnect
attempt and an untouched handle; otherwise exactly one connect attempt is
made and the reported boolean equals that attempt's outcome (with the handle
reflecting it).  The handler is a total function (never throws), reports the
camera purely from the `camera_running` flag and never touches the camera
state. -/
theorem status_nondestructive_probe (st : ServerState) (hOk fOk : Bool) :
    (st.handLink = some true →
      (get_status hOk fOk st).hand_connected = true ∧
      (get_status hOk fOk st).handAttempts = 0 ∧
      (get_status hOk fOk st).state.handLink = st.handLink) ∧
    (st.handLink ≠ some true →
      (get_status hOk fOk st).handAttempts = 1 ∧
      (get_status hOk fOk st).hand_connected = hOk ∧
      (get_status hOk fOk st).state.handLink = (if hOk then some true else none)) ∧
    (st.faceLink = some true →
      (get_status hOk fOk st).face_connected = true ∧
      (get_status hOk fOk st).faceAttempts = 0 ∧
      (get_status hOk fOk st).state.faceLink = st.faceLink) ∧
    (st.faceLink ≠ some true →
      (get_status hOk fOk st).faceAttempts = 1 ∧
      (get_status hOk fOk st).face_connected = fOk ∧
      (get_status hOk fOk st).state.faceLink = (if fOk then some true else none)) ∧
    (get_status hOk fOk st).camera_running = st.cameraRunning ∧
    (get_status hOk fOk st).state.camera = st.camera ∧
    (get_status hOk fOk st).state.cameraRunning = st.cameraRunning ∧
    (get_status hOk fOk st).state.latestFrame = st.latestFrame := by
  by_cases h1 : st.handLink = some true <;> by_cases h2 : st.faceLink = some true <;>
    cases hOk <;> cases fOk <;>
      simp [get_status, init_hand_arduino, init_face_arduino, h1, h2]

/-- Witness for `status_nondestructive_probe` on the all-closed state with a
successful hand reconnect and a failed face reconnect: one attempt each,
reported booleans matching the outcomes. -/
theorem status_nondestructive_probe_witness :
    (get_status true false stBothClosed).handAttempts = 1 ∧
    (get_status true false stBothClosed).hand_connected = true ∧
    (get_status true false stBothClosed).faceAttempts = 1 ∧
    (get_status true false stBothClosed).face_connected = false ∧
    (get_status true false stBothOpen).handAttempts = 0 ∧
    (get_status true false stBothOpen).hand_connected = true := by
  have h1 := status_nondestructive_probe stBothClosed true false
  have h2 := status_nondestructive_probe stBothOpen true false
  exact ⟨(h1.2.1 (by decide)).1, (h1.2.1 (by decide)).2.1,
    (h1.2.2.2.1 (by decide)).1, (h1.2.2.2.1 (by decide)).2.1,
    (h2.1 rfl).2.1, (h2.1 rfl).1⟩

/-- C7 counterexample: stopping the camera on a state holding a latest frame
leaves that frame in the shared slot — `latest_frame` is never cleared by
`stop_camera`, so a stale frame remains observable in the state. -/
theorem stop_camera_keeps_stale_frame :
    (stop_camera ⟨some true, some true, some 0, true, some 7⟩).state.latestFrame =
      some 7 ∧
    (stop_camera ⟨some true, some true, some 0, true, some 7⟩).state.latestFrame ≠
      none := by
  decide

/-- C7 amended: after every `POST /camera/stop`, the `running` flag is false
and the camera handle is released and dropped (set to `None`), and the
request is answered HTTP 200; but the shared latest-frame slot is left
unchanged — it retains whatever frame it held, rather than being cleared to
empty. -/
theorem stop_camera_state (st : ServerState) :
    (stop_camera st).code = 200 ∧
    (stop_camera st).ok = true ∧
    (stop_camera st).state.cameraRunning = false ∧
    (stop_camera st).state.camera = none ∧
    (stop_camera st).state.latestFrame = st.latestFrame ∧
    (stop_camera st).state.handLink = st.handLink ∧
    (stop_camera st).state.faceLink = st.faceLink := by
  by_cases h : st.camera = none <;> simp [stop_camera, h]

/-- C8: for every `POST /face_look` pixel input at frame size 640x480 the
computed angles equal the mirrored linear map
`pan = PAN_MIN + (1 - x/width) * (PAN_MAX - PAN_MIN)` and
`tilt = TILT_MIN + (y/height) * (TILT_MAX - TILT_MIN)`, rounded to the
nearest integer degree and clamped to the servo ranges; x=0 gives
pan=PAN_MAX, x=640 gives pan=PAN_MIN, y=0 gives tilt=TILT_MIN, y=480 gives
tilt=TILT_MAX. -/
theorem face_look_linear_mapping (x y : Int) :
    face_to_servo x y 640 480 = (pan_spec x, tilt_spec y) ∧
    (∀ (b : Option FaceLookPayload) (st : ServerState) (c w : Bool),
      (face_look c w b st).pan = pan_spec ((b.getD ⟨none, none⟩).x.getD 320) ∧
      (face_look c w b st).tilt = tilt_spec ((b.getD ⟨none, none⟩).y.getD 240)) ∧
    pan_spec 0 = EYE_PAN_MAX ∧ pan_spec 640 = EYE_PAN_MIN ∧
    tilt_spec 0 = EYE_TILT_MIN ∧ tilt_spec 480 = EYE_TILT_MAX ∧
    (face_to_servo 0 0 640 480).1 = 110 ∧ (face_to_servo 640 480 640 480).1 = 70 ∧
    (face_to_servo 0 0 640 480).2 = 60 ∧ (face_to_servo 0 480 640 480).2 = 100 := by
  have hp0 : pan_spec 0 = 110 := pan_spec_eval (by push_cast; norm_num) (by norm_num) (by norm_num)
  have hp640 : pan_spec 640 = 70 := pan_spec_eval (by push_cast; norm_num) (by norm_num) (by norm_num)
  have ht0 : tilt_spec 0 = 60 := tilt_spec_eval (by push_cast; norm_num) (by norm_num) (by norm_num)
  have ht480 : tilt_spec 480 = 100 := tilt_spec_eval (by push_cast; norm_num) (by norm_num) (by norm_num)
  refine ⟨face_to_servo_spec x y, ?_, ?_, ?_, ?_, ?_, ?_, ?_, ?_, ?_⟩
  · intro b st c w
    constructor <;> simp [face_look, face_to_servo_spec]
  · rw [hp0]; rfl
  · rw [hp640]; rfl
  · rw [ht0]; rfl
  · rw [ht480]; rfl
  · rw [face_to_servo_spec]; exact hp0
  · rw [face_to_servo_spec]; exact hp640
  · rw [face_to_servo_spec]; exact ht0
  · rw [face_to_servo_spec]; exact ht480

/-- C9: for every `POST /face` request the command contains only the fields
present in the request, space-joined in the fixed order `E<eyes>` then
`M<mouth>`; `{eyes:85}` alone yields exactly `"E85"` (no trailing space or
mouth token), `{mouth:60}` alone yields exactly `"M60"`, and a body with
neither recognized field is answered HTTP 400 with `send_to_face_arduino`
never invoked.  Both variants. -/
theorem face_partial_update (p : FacePayload) (st : ServerState) (c w : Bool)
    (hopen : st.faceLink = some true) :
    pyStrip (faceCommandRaw ⟨some 85, none⟩) = "E85" ∧
    pyStrip (faceCommandRaw ⟨none, some 60⟩) = "M60" ∧
    (rasb_set_face c true (some ⟨some 85, none⟩) st).writes =
      [DeviceWrite.faceCmd "E85\n"] ∧
    (volt_set_face c true (some ⟨some 85, none⟩) st).writes =
      [DeviceWrite.faceCmd "E85\n"] ∧
    (rasb_set_face c true (some ⟨none, some 60⟩) st).writes =
      [DeviceWrite.faceCmd "M60\n"] ∧
    (volt_set_face c true (some ⟨none, some 60⟩) st).writes =
      [DeviceWrite.faceCmd "M60\n"] ∧
    faceCommandRaw p =
      (match p.eyes with
       | some e => "E" ++ toString (clamp 70 110 e) ++ " "
       | none => "") ++
      (match p.mouth with
       | some m => "M" ++ toString (clamp 0 80 m)
       | none => "") ∧
    (p.eyes = none → p.mouth = none →
      rasb_set_face c w (some p) st = ⟨400, false, st, []⟩ ∧
      volt_set_face c w (some p) st = ⟨400, false, st, []⟩) ∧
    (p.eyes ≠ none ∨ p.mouth ≠ none →
      (rasb_set_face c w (some p) st).code = 200 ∧
      (rasb_set_face c w (some p) st).writes =
        (if w then [DeviceWrite.faceCmd (ensureNewline (pyStrip (faceCommandRaw p)))]
         else [])) := by
  have hne85 : faceCommandRaw ⟨some 85, none⟩ ≠ "" := by decide
  have hne60 : faceCommandRaw ⟨none, some 60⟩ ≠ "" := by decide
  refine ⟨by decide, by decide, ?_, ?_, ?_, ?_, ?_, ?_, ?_⟩
  · simp [rasb_set_face, rasb_set_face_body, rasb_send_to_face_arduino, hopen, hne85]
    rfl
  · simp [volt_set_face, volt_send_to_face_arduino, volt_face_write, hopen, hne85]
    rfl
  · simp [rasb_set_face, rasb_set_face_body, rasb_send_to_face_arduino, hopen, hne60]
    rfl
  · simp [volt_set_face, volt_send_to_face_arduino, volt_face_write, hopen, hne60]
    rfl
  · rcases hpe : p.eyes with _ | e <;> rcases hpm : p.mouth with _ | m <;>
      simp [faceCommandRaw, hpe, hpm, EYE_MIN, EYE_MAX, MOUTH_MIN, MOUTH_MAX]
  · intro h1 h2
    have hraw : faceCommandRaw p = "" := by simp [faceCommandRaw, h1, h2]
    constructor <;> simp [rasb_set_face, rasb_set_face_body, volt_set_face, hopen, hraw]
  · intro h
    have hne := faceCommandRaw_ne_empty h
    constructor
    · simp [rasb_set_face, rasb_set_face_body, rasb_send_to_face_arduino, hopen, hne]
    · cases w <;>
        simp [rasb_set_face, rasb_set_face_body, rasb_send_to_face_arduino, hopen, hne]

/-- Witness for `face_partial_update` on the open-link state: eyes-only and
mouth-only bodies produce exactly the lines `"E85\n"` and `"M60\n"`. -/
theorem face_partial_update_witness :
    (rasb_set_face true true (some ⟨some 85, none⟩) stBothOpen).writes =
      [DeviceWrite.faceCmd "E85\n"] ∧
    (volt_set_face true true (some ⟨none, some 60⟩) stBothOpen).writes =
      [DeviceWrite.faceCmd "M60\n"] := by
  have h := face_partial_update ⟨some 85, none⟩ stBothOpen true true rfl
  exact ⟨h.2.2.1, h.2.2.2.2.2.1⟩

/-- C10: for every `POST /face_look` request (with the face link open and a
successful write), the line written to the face link is exactly
`"E<pan> T<tilt>\n"` — the tilt rides on a `T`-prefixed token — and the
mouth token `M` never occurs in the line; the pan/tilt values stay inside
the eye servo ranges. -/
theorem face_look_E_T_line (b : Option FaceLookPayload) (st : ServerState) (c : Bool)
    (hopen : st.faceLink = some true) :
    (face_look c true b st).writes =
      [DeviceWrite.faceCmd ("E" ++ toString (face_look c true b st).pan ++ " T" ++
        toString (face_look c true b st).tilt ++ "\n")] ∧
    'M' ∉ ("E" ++ toString (face_look c true b st).pan ++ " T" ++
        toString (face_look c true b st).tilt ++ "\n").data ∧
    70 ≤ (face_look c true b st).pan ∧ (face_look c true b st).pan ≤ 110 ∧
    60 ≤ (face_look c true b st).tilt ∧ (face_look c true b st).tilt ≤ 100 := by
  have hpan : (face_look c true b st).pan = pan_spec ((b.getD ⟨none, none⟩).x.getD 320) := by
    simp [face_look, face_to_servo_spec]
  have htilt : (face_look c true b st).tilt = tilt_spec ((b.getD ⟨none, none⟩).y.getD 240) := by
    simp [face_look, face_to_servo_spec]
  have hpb := pan_spec_bounds ((b.getD ⟨none, none⟩).x.getD 320)
  have htb := tilt_spec_bounds ((b.getD ⟨none, none⟩).y.getD 240)
  have h1 : 'M' ∉ (toString (face_look c true b st).pan).data := by
    rw [hpan]
    exact toString_no_M_of_bounds (le_trans (by norm_num) hpb.1) hpb.2
  have h2 : 'M' ∉ (toString (face_look c true b st).tilt).data := by
    rw [htilt]
    exact toString_no_M_of_bounds htb.1 (le_trans htb.2 (by norm_num))
  have e1 : 'M' ∉ "E".data := by decide
  have e2 : 'M' ∉ " T".data := by decide
  have e3 : 'M' ∉ "\n".data := by decide
  refine ⟨?_, ?_, ?_, ?_, ?_, ?_⟩
  · simp [face_look, volt_send_to_face_arduino, volt_face_write, hopen,
      ensureNewline_append_newline]
  · simp [String.data_append, h1, h2, e1, e2, e3]
  · rw [hpan]; exact hpb.1
  · rw [hpan]; exact hpb.2
  · rw [htilt]; exact htb.1
  · rw [htilt]; exact htb.2

/-- Witness for `face_look_E_T_line`: the default body (x=320, y=240)
produces the exact line `"E90 T80\n"`. -/
theorem face_look_E_T_line_witness :
    (face_look true true none stBothOpen).writes = [DeviceWrite.faceCmd "E90 T80\n"] := by
  have h := face_look_E_T_line none stBothOpen true rfl
  rw [h.1]
  have hp : (face_look true true none stBothOpen).pan = 90 := by
    have hx : (face_look true true none stBothOpen).pan = pan_spec 320 := by
      simp [face_look, face_to_servo_spec]
    rw [hx]
    exact pan_spec_eval (by push_cast; norm_num) (by norm_num) (by norm_num)
  have ht : (face_look true true none stBothOpen).tilt = 80 := by
    have hy : (face_look true true none stBothOpen).tilt = tilt_spec 240 := by
      simp [face_look, face_to_servo_spec]
    rw [hy]
    exact tilt_spec_eval (by push_cast; norm_num) (by norm_num) (by norm_num)
  rw [hp, ht]
  rfl

end Asta
